import Mathlib

/-!
Shallow embedding of the WB-Repricer pricing core:
margin calculator (`backend/app/services/promotion_collector.py`),
out-of-stock strategy handler (`backend/app/services/strategies/out_of_stock.py`)
and the strategy runner (`backend/app/services/strategies/runner.py`).

Numeric values (Python floats / SQL Numeric columns) are modelled as
rationals; Python `round(x, n)` is banker's rounding (round half to even),
modelled exactly on rationals.  Python truthiness of an optional numeric
(`if x:` is false for `None` and for `0`) is modelled by `pyTruthy`.
-/

/-- Python truthiness of an optional number: `None` and `0` are falsy. -/
def pyTruthy : Option ℚ → Bool
  | none => false
  | some x => x ≠ 0

/-- Python `x or 0` on an optional number (also the value extraction after
a truthiness guard). -/
def orZero : Option ℚ → ℚ
  | none => 0
  | some x => x

/-- Round a rational to the nearest integer, ties to even
(the rounding mode of Python `round`). -/
def roundHalfEven (x : ℚ) : ℤ :=
  let f := ⌊x⌋
  let r := x - f
  if r < 1 / 2 then f
  else if 1 / 2 < r then f + 1
  else if f % 2 = 0 then f else f + 1

/-- Python `round(x, d)`: round half to even at `d` decimal places. -/
def roundTo (d : ℕ) (x : ℚ) : ℚ :=
  ((roundHalfEven (x * 10 ^ d) : ℤ) : ℚ) / 10 ^ d

/-- One entry of a product's `extra_costs_json` list (`{name, value, type}`);
the schema class `ExtraCostItem` is referenced but its module is not in the
sources, so the shape is taken from the model column comment and from the
use `item.type == "fixed"` / `item.value` in `calculate_promo_margin`. -/
structure ExtraCostItem where
  name : String
  value : ℚ
  itemType : String
deriving DecidableEq

/-- The fields of the `Product` model that the pricing core reads
(`backend/app/models/product.py`).  `extra_costs` is the parsed
`extra_costs_json` list; an absent or unparseable JSON blob is the empty
list (both contribute 0 to the fixed extra costs, as in the source). -/
structure Product where
  id : ℕ
  account_id : ℕ
  cost_price : Option ℚ
  commission_pct : Option ℚ
  logistics_cost : Option ℚ
  storage_cost : Option ℚ
  ad_pct : Option ℚ
  spp_pct : Option ℚ
  extra_costs : List ExtraCostItem
  total_stock : ℤ
deriving DecidableEq

/-- Sum of the `fixed`-type extra cost items
(`promotion_collector.py` lines 69-76). -/
def extraFixedTotal (p : Product) : ℚ :=
  ((p.extra_costs.filter (fun i => i.itemType = "fixed")).map
    (fun i => i.value)).sum

/-- Buyer-visible price after SPP discount
(`spp_price = price * (1 - spp_pct / 100) if spp_pct else price`). -/
def spp_price (p : Product) (price : ℚ) : ℚ :=
  if pyTruthy p.spp_pct then price * (1 - orZero p.spp_pct / 100) else price

/-- Tax, computed on the buyer-visible price
(`tax_amount = spp_price * account_tax / 100 if account_tax else 0`). -/
def tax_amount (p : Product) (price account_tax : ℚ) : ℚ :=
  if account_tax ≠ 0 then spp_price p price * account_tax / 100 else 0

/-- Commission fee (`price * commission_pct / 100 if commission_pct else 0`). -/
def commission_amount (p : Product) (price : ℚ) : ℚ :=
  if pyTruthy p.commission_pct then price * orZero p.commission_pct / 100 else 0

/-- Tariff fee (`price * account_tariff / 100 if account_tariff else 0`). -/
def tariff_amount (price account_tariff : ℚ) : ℚ :=
  if account_tariff ≠ 0 then price * account_tariff / 100 else 0

/-- Advertising fee (`price * ad_pct / 100 if ad_pct else 0`). -/
def ad_amount (p : Product) (price : ℚ) : ℚ :=
  if pyTruthy p.ad_pct then price * orZero p.ad_pct / 100 else 0

/-- Cost sum of `calculate_promo_margin` (`promotion_collector.py` 85-94). -/
def total_costs (p : Product) (price account_tax account_tariff : ℚ) : ℚ :=
  orZero p.cost_price + tax_amount p price account_tax
    + commission_amount p price + tariff_amount price account_tariff
    + orZero p.logistics_cost + orZero p.storage_cost
    + ad_amount p price + extraFixedTotal p

/-- `margin_rub = round(price - total_costs, 2)`. -/
def margin_rub (p : Product) (price account_tax account_tariff : ℚ) : ℚ :=
  roundTo 2 (price - total_costs p price account_tax account_tariff)

/-- `margin_pct = round(margin_rub / price * 100, 1)`. -/
def margin_pct (p : Product) (price account_tax account_tariff : ℚ) : ℚ :=
  roundTo 1 (margin_rub p price account_tax account_tariff / price * 100)

/-- `calculate_promo_margin` (`promotion_collector.py` lines 42-98):
returns `(margin_pct, margin_rub)`, or `(none, none)` when the guard
`not price or not cost_price or price <= 0` fires. -/
def calculate_promo_margin (p : Product) (price account_tax account_tariff : ℚ) :
    Option ℚ × Option ℚ :=
  if pyTruthy (some price) = false ∨ pyTruthy p.cost_price = false ∨ price ≤ 0 then
    (none, none)
  else
    (some (margin_pct p price account_tax account_tariff),
     some (margin_rub p price account_tax account_tariff))

/-- Spec-side buyer price: `price × (1 − spp_pct/100)` when `spp_pct` is set,
else `price` (spec §4.1 step 1). -/
def buyer_price_spec (price : ℚ) (spp : Option ℚ) : ℚ :=
  match spp with
  | some s => price * (1 - s / 100)
  | none => price

/-- Spec-side total costs (spec §4.1 steps 2-6): each percentage fee taken
of `price`, tax taken of the buyer price, absent inputs read as 0. -/
def total_costs_spec (p : Product) (price account_tax account_tariff : ℚ) : ℚ :=
  orZero p.cost_price
    + buyer_price_spec price p.spp_pct * account_tax / 100
    + price * orZero p.commission_pct / 100
    + price * account_tariff / 100
    + orZero p.logistics_cost + orZero p.storage_cost
    + price * orZero p.ad_pct / 100
    + extraFixedTotal p

/-- Spec-side `margin_amount = round(price − total_costs, 2)` (spec §4.1 step 7). -/
def margin_amount_spec (p : Product) (price account_tax account_tariff : ℚ) : ℚ :=
  roundTo 2 (price - total_costs_spec p price account_tax account_tariff)

/-- Spec-side `margin_pct = round(margin_amount / price × 100, 1)` (§4.1 step 8). -/
def margin_pct_spec (p : Product) (price account_tax account_tariff : ℚ) : ℚ :=
  roundTo 1 (margin_amount_spec p price account_tax account_tariff / price * 100)

/-- Replace an absent optional input by an explicit 0. -/
def zfill (o : Option ℚ) : Option ℚ := some (orZero o)

/-- Product with every absent percentage / cost input replaced by 0
(`cost_price` is left alone: it is a required input). -/
def fillAbsent (p : Product) : Product :=
  { p with commission_pct := zfill p.commission_pct,
           logistics_cost := zfill p.logistics_cost,
           storage_cost := zfill p.storage_cost,
           ad_pct := zfill p.ad_pct,
           spp_pct := zfill p.spp_pct }

/-- Account rate extraction at the call sites
(`float(account.tax_rate) if account and account.tax_rate else 0.0`). -/
def accRate (o : Option ℚ) : ℚ :=
  if pyTruthy o then orZero o else 0

lemma pyTruthy_zfill (o : Option ℚ) : pyTruthy (zfill o) = pyTruthy o := by
  cases o with
  | none => simp [zfill, orZero, pyTruthy]
  | some x => simp [zfill, orZero, pyTruthy]

lemma orZero_zfill (o : Option ℚ) : orZero (zfill o) = orZero o := by
  cases o with
  | none => simp [zfill, orZero]
  | some x => simp [zfill, orZero]

lemma spp_price_eq_spec (p : Product) (price : ℚ) :
    spp_price p price = buyer_price_spec price p.spp_pct := by
  unfold spp_price buyer_price_spec
  cases h : p.spp_pct with
  | none => simp [pyTruthy]
  | some s =>
      by_cases hs : s = 0
      · simp [pyTruthy, orZero, hs]
      · simp [pyTruthy, orZero, hs]

lemma commission_amount_eq_spec (p : Product) (price : ℚ) :
    commission_amount p price = price * orZero p.commission_pct / 100 := by
  unfold commission_amount
  cases h : p.commission_pct with
  | none => simp [pyTruthy, orZero]
  | some s =>
      by_cases hs : s = 0
      · simp [pyTruthy, orZero, hs]
      · simp [pyTruthy, orZero, hs]

lemma ad_amount_eq_spec (p : Product) (price : ℚ) :
    ad_amount p price = price * orZero p.ad_pct / 100 := by
  unfold ad_amount
  cases h : p.ad_pct with
  | none => simp [pyTruthy, orZero]
  | some s =>
      by_cases hs : s = 0
      · simp [pyTruthy, orZero, hs]
      · simp [pyTruthy, orZero, hs]

lemma tax_amount_eq_spec (p : Product) (price t : ℚ) :
    tax_amount p price t = buyer_price_spec price p.spp_pct * t / 100 := by
  unfold tax_amount
  by_cases ht : t = 0
  · simp [ht]
  · simp [ht, spp_price_eq_spec]

lemma tariff_amount_eq_spec (price t : ℚ) :
    tariff_amount price t = price * t / 100 := by
  unfold tariff_amount
  by_cases ht : t = 0
  · simp [ht]
  · simp [ht]

lemma total_costs_eq_spec (p : Product) (price tax tariff : ℚ) :
    total_costs p price tax tariff = total_costs_spec p price tax tariff := by
  unfold total_costs total_costs_spec
  rw [tax_amount_eq_spec, commission_amount_eq_spec, tariff_amount_eq_spec,
    ad_amount_eq_spec]

/-- The example product of spec §8: cost 400, commission 15 %, logistics 50,
storage 20, advertising 5 %, SPP 10 %, no extra costs. -/
def exampleProduct : Product :=
  { id := 1, account_id := 1, cost_price := some 400,
    commission_pct := some 15, logistics_cost := some 50,
    storage_cost := some 20, ad_pct := some 5, spp_pct := some 10,
    extra_costs := [], total_stock := 100 }

/-- A product whose cost price is present but zero. -/
def zeroCostProduct : Product :=
  { exampleProduct with cost_price := some 0 }

/-- A product with every optional fee input absent. -/
def noFeesProduct : Product :=
  { id := 2, account_id := 1, cost_price := some 300,
    commission_pct := none, logistics_cost := none, storage_cost := none,
    ad_pct := none, spp_pct := none, extra_costs := [], total_stock := 10 }

lemma buyer_price_spec_zfill (price : ℚ) (o : Option ℚ) :
    buyer_price_spec price (zfill o) = buyer_price_spec price o := by
  cases o with
  | none => simp [zfill, orZero, buyer_price_spec]
  | some s => rfl

lemma total_costs_fillAbsent (p : Product) (price tax tariff : ℚ) :
    total_costs (fillAbsent p) price tax tariff
      = total_costs p price tax tariff := by
  rw [total_costs_eq_spec, total_costs_eq_spec]
  unfold total_costs_spec
  have h1 : (fillAbsent p).cost_price = p.cost_price := rfl
  have h2 : (fillAbsent p).commission_pct = zfill p.commission_pct := rfl
  have h3 : (fillAbsent p).logistics_cost = zfill p.logistics_cost := rfl
  have h4 : (fillAbsent p).storage_cost = zfill p.storage_cost := rfl
  have h5 : (fillAbsent p).ad_pct = zfill p.ad_pct := rfl
  have h6 : (fillAbsent p).spp_pct = zfill p.spp_pct := rfl
  have h7 : extraFixedTotal (fillAbsent p) = extraFixedTotal p := rfl
  rw [h1, h2, h3, h4, h5, h6, h7, buyer_price_spec_zfill,
    orZero_zfill, orZero_zfill, orZero_zfill, orZero_zfill]

/-- C1 (amended): for a positive price and a present, nonzero cost price,
`calculate_promo_margin` returns exactly the spec formula: tax on the
buyer-visible price after the SPP discount, every percentage fee taken of
`price`, `margin_amount = round(price - total_costs, 2)` and
`margin_pct = round(margin_amount / price * 100, 1)`. -/
theorem calculate_promo_margin_formula (p : Product) (price tax tariff : ℚ)
    (hp : 0 < price) (cp : ℚ) (hc : p.cost_price = some cp) (hc0 : cp ≠ 0) :
    calculate_promo_margin p price tax tariff =
      (some (margin_pct_spec p price tax tariff),
       some (margin_amount_spec p price tax tariff)) := by
  unfold calculate_promo_margin
  rw [if_neg]
  · unfold margin_pct margin_rub margin_pct_spec margin_amount_spec
    rw [total_costs_eq_spec]
  · rintro (h | h | h)
    · simp [pyTruthy, hp.ne.symm] at h
    · rw [hc] at h
      simp [pyTruthy, hc0] at h
    · exact absurd h (not_le.mpr hp)

/-- C1 witness: the spec §8 example,
`compute_margin(price=1000, cost=400, commission=15, logistics=50,
storage=20, ad=5, spp=10, tax=6, tariff=0) = (27.6, 276)`. -/
theorem calculate_promo_margin_formula_witness :
    calculate_promo_margin exampleProduct 1000 6 0
      = (some (27.6 : ℚ), some 276) := by
  have h := calculate_promo_margin_formula exampleProduct 1000 6 0
    (by norm_num) 400 rfl (by norm_num)
  rw [h]
  norm_num [margin_pct_spec, margin_amount_spec, total_costs_spec,
    buyer_price_spec, extraFixedTotal, exampleProduct, orZero,
    roundTo, roundHalfEven]

/-- C1 counterexample: at price 1000 with cost price present but equal to 0,
the code returns `(none, none)` while the claimed formula yields a margin,
so the claim as stated (any present cost price) fails. -/
theorem calculate_promo_margin_zero_cost_cex :
    0 < (1000 : ℚ) ∧ zeroCostProduct.cost_price = some 0 ∧
    calculate_promo_margin zeroCostProduct 1000 0 0 ≠
      (some (margin_pct_spec zeroCostProduct 1000 0 0),
       some (margin_amount_spec zeroCostProduct 1000 0 0)) := by
  refine ⟨by norm_num, rfl, ?_⟩
  have hl : calculate_promo_margin zeroCostProduct 1000 0 0 = (none, none) := by
    norm_num [calculate_promo_margin, zeroCostProduct, exampleProduct, pyTruthy]
  rw [hl]
  simp

/-- C2: the margin calculator returns `(none, none)` whenever the price is
non-positive or the cost price is absent; an absent optional fee input is
read as 0 (replacing every absent fee by an explicit 0 does not change the
result), and the account tax / tariff rates are read as 0 when absent. -/
theorem calculate_promo_margin_edge_policy (p : Product) (price tax tariff : ℚ) :
    ((price ≤ 0 ∨ p.cost_price = none) →
      calculate_promo_margin p price tax tariff = (none, none))
    ∧ calculate_promo_margin p price tax tariff
        = calculate_promo_margin (fillAbsent p) price tax tariff
    ∧ accRate none = 0 := by
  refine ⟨?_, ?_, rfl⟩
  · intro h
    unfold calculate_promo_margin
    rw [if_pos]
    rcases h with h | h
    · exact Or.inr (Or.inr h)
    · exact Or.inr (Or.inl (by rw [h]; rfl))
  · unfold calculate_promo_margin
    have hcost : (fillAbsent p).cost_price = p.cost_price := rfl
    rw [hcost]
    by_cases hguard : (pyTruthy (some price) = false
        ∨ pyTruthy p.cost_price = false ∨ price ≤ 0)
    · rw [if_pos hguard, if_pos hguard]
    · rw [if_neg hguard, if_neg hguard]
      unfold margin_pct margin_rub
      rw [total_costs_fillAbsent]

/-- C2 witness: a negative price yields `(none, none)`, and a product with
every optional fee absent computes the same margin as its zero-filled copy. -/
theorem calculate_promo_margin_edge_policy_witness :
    calculate_promo_margin exampleProduct (-5) 6 0 = (none, none)
    ∧ calculate_promo_margin noFeesProduct 1000 6 0
        = calculate_promo_margin (fillAbsent noFeesProduct) 1000 6 0 :=
  ⟨(calculate_promo_margin_edge_policy exampleProduct (-5) 6 0).1
      (Or.inl (by norm_num)),
   (calculate_promo_margin_edge_policy noFeesProduct 1000 6 0).2.1⟩

/-- C10: a present cost price equal to 0 is treated like an absent one:
the calculator returns `(none, none)` whatever the other inputs are
(the guard `not cost_price` is Python truthiness, falsy at 0). -/
theorem calculate_promo_margin_zero_cost (p : Product) (price tax tariff : ℚ)
    (h : p.cost_price = some 0) :
    calculate_promo_margin p price tax tariff = (none, none) := by
  unfold calculate_promo_margin
  rw [if_pos]
  refine Or.inr (Or.inl ?_)
  rw [h]
  simp [pyTruthy]

/-- C10 witness: the zero-cost product at price 1000 yields `(none, none)`. -/
theorem calculate_promo_margin_zero_cost_witness :
    calculate_promo_margin zeroCostProduct 1000 6 0 = (none, none) :=
  calculate_promo_margin_zero_cost zeroCostProduct 1000 6 0 rfl

/-- The latest `PriceSnapshot` row for a product
(`backend/app/models/price.py`); only `final_price` is read by the handler. -/
structure PriceSnapshot where
  product_id : ℕ
  final_price : Option ℚ
deriving DecidableEq

/-- The merged out-of-stock configuration
(`out_of_stock.py` `DEFAULT_CONFIG` merged with the stored config);
`use_7d_velocity` is declared in the defaults but never read, so it is
not modelled. -/
structure OOSConfig where
  threshold_days : ℚ
  critical_days : ℚ
  price_increase_pct : ℚ
  critical_increase_pct : ℚ
  max_price_increase_pct : ℚ
  min_margin_pct : ℚ
  exclude_zero_stock : Bool
deriving DecidableEq

/-- `DEFAULT_CONFIG` of `out_of_stock.py`. -/
def DEFAULT_CONFIG : OOSConfig :=
  { threshold_days := 7, critical_days := 3, price_increase_pct := 15,
    critical_increase_pct := 30, max_price_increase_pct := 50,
    min_margin_pct := 5, exclude_zero_stock := true }

/-- The diagnostic payload (`extra_data`) of a recommendation. -/
structure OOSExtraData where
  total_stock : ℤ
  orders_7d : ℤ
  velocity_7d : ℚ
  days_remaining : ℚ
deriving DecidableEq

/-- `PriceRecommendation` (`strategies/base.py`).  The human-readable
`reason` text (Russian, built with float formatting) is outside this
embedding and is represented by the empty string. -/
structure PriceRecommendation where
  product_id : ℕ
  current_price : ℚ
  recommended_price : ℚ
  price_change_pct : ℚ
  current_margin_pct : Option ℚ
  new_margin_pct : Option ℚ
  new_margin_rub : Option ℚ
  alert_level : String
  reason : String
  extra_data : Option OOSExtraData
deriving DecidableEq

/-- The per-product data the handler gathers before its loop
(`out_of_stock.py` lines 56-108): the product row, the latest price
snapshot if any, the 7-day sales sums if a `SalesDaily` row group exists
(orders sum, returns sum, either possibly NULL), and the account settings
entry if the account row exists. -/
structure ProductCtx where
  product : Product
  snapshot : Option PriceSnapshot
  sales : Option (Option ℤ × Option ℤ)
  acc : Option (ℚ × ℚ)
deriving DecidableEq

/-- Net 7-day orders: `max((orders or 0) - (returns or 0), 0)` with a
missing row group read as 0 (`out_of_stock.py` lines 91-94, 123). -/
def netOrders (sales : Option (Option ℤ × Option ℤ)) : ℤ :=
  match sales with
  | none => 0
  | some (o, r) => max (o.getD 0 - r.getD 0) 0

/-- `velocity_7d = orders_7d / 7.0 if orders_7d > 0 else 0`. -/
def velocity7d (ctx : ProductCtx) : ℚ :=
  if 0 < netOrders ctx.sales then (netOrders ctx.sales : ℚ) / 7 else 0

/-- `days_remaining = stock / velocity_7d` (only used when velocity > 0). -/
def daysRemaining (ctx : ProductCtx) : ℚ :=
  (ctx.product.total_stock : ℚ) / velocity7d ctx

/-- Body of one `OutOfStockHandler.execute` loop iteration after the
zero-stock gate, as a function of the snapshot lookup (`out_of_stock.py`
lines 118-188): `none` models `continue` (skip). -/
def processSnap (cfg : OOSConfig) (ctx : ProductCtx) :
    Option PriceSnapshot → Option PriceRecommendation
  | none => none
  | some snap =>
    if pyTruthy snap.final_price = false then none
    else
      let current_price := orZero snap.final_price
      if velocity7d ctx ≤ 0 then none
      else if cfg.threshold_days ≤ daysRemaining ctx then none
      else
        let tier :=
          if cfg.critical_days ≤ daysRemaining ctx then
            ("warning", cfg.price_increase_pct)
          else
            ("critical", cfg.critical_increase_pct)
        let increase_pct := min tier.2 cfg.max_price_increase_pct
        let recommended_price := roundTo 2 (current_price * (1 + increase_pct / 100))
        let rates := ctx.acc.getD (0, 0)
        let cur := calculate_promo_margin ctx.product current_price rates.1 rates.2
        let nm := calculate_promo_margin ctx.product recommended_price rates.1 rates.2
        some { product_id := ctx.product.id,
               current_price := current_price,
               recommended_price := recommended_price,
               price_change_pct := roundTo 1 increase_pct,
               current_margin_pct := cur.1,
               new_margin_pct := nm.1,
               new_margin_rub := nm.2,
               alert_level := tier.1,
               reason := "",
               extra_data := some { total_stock := ctx.product.total_stock,
                                    orders_7d := netOrders ctx.sales,
                                    velocity_7d := roundTo 2 (velocity7d ctx),
                                    days_remaining := roundTo 1 (daysRemaining ctx) } }

/-- One iteration of the `OutOfStockHandler.execute` product loop
(`out_of_stock.py` lines 112-188): `none` models `continue` (skip). -/
def processProduct (cfg : OOSConfig) (ctx : ProductCtx) : Option PriceRecommendation :=
  if cfg.exclude_zero_stock = true ∧ ctx.product.total_stock = 0 then none
  else processSnap cfg ctx ctx.snapshot

/-- The whole product loop: per-product results collected in order,
skipped products contributing nothing. -/
def oosExecute (cfg : OOSConfig) (ctxs : List ProductCtx) : List PriceRecommendation :=
  ctxs.filterMap (processProduct cfg)

/-- Context of the spec §8 example: stock 20, 70 net orders over 7 days
(velocity 10/day), latest price 1000. -/
def exOOSCtx : ProductCtx :=
  { product := { exampleProduct with total_stock := 20 },
    snapshot := some { product_id := 1, final_price := some 1000 },
    sales := some (some 70, some 0), acc := some (6, 0) }

/-- A product with zero stock but brisk sales. -/
def zeroStockCtx : ProductCtx :=
  { product := { exampleProduct with total_stock := 0 },
    snapshot := some { product_id := 1, final_price := some 1000 },
    sales := some (some 70, some 0), acc := some (6, 0) }

/-- A product with no price snapshot at all. -/
def noPriceCtx : ProductCtx :=
  { product := { exampleProduct with total_stock := 20 },
    snapshot := none, sales := some (some 70, some 0), acc := none }

/-- A product with no sales rows in the trailing 7-day window. -/
def noSalesCtx : ProductCtx :=
  { product := { exampleProduct with total_stock := 20 },
    snapshot := some { product_id := 1, final_price := some 1000 },
    sales := none, acc := some (6, 0) }

/-- C3: for a product that passes the zero-stock gate, has a truthy latest
price and positive 7-day velocity, and for an ordered tier configuration
(`critical_days ≤ threshold_days`): days-remaining at or above the
threshold is skipped; between the critical and threshold cutoffs a warning
recommendation is emitted with bump `price_increase_pct`; below the
critical cutoff a critical recommendation with bump
`critical_increase_pct`; the bump is capped at `max_price_increase_pct`
and `recommended_price = round(current_price * (1 + bump / 100), 2)`. -/
theorem oos_classification (cfg : OOSConfig) (ctx : ProductCtx)
    (snap : PriceSnapshot) (price : ℚ)
    (hs : ctx.snapshot = some snap) (hp : snap.final_price = some price)
    (hp0 : price ≠ 0) (hv : 0 < netOrders ctx.sales)
    (hstock : ¬(cfg.exclude_zero_stock = true ∧ ctx.product.total_stock = 0))
    (hcfg : cfg.critical_days ≤ cfg.threshold_days) :
    (cfg.threshold_days ≤ daysRemaining ctx → processProduct cfg ctx = none)
    ∧ (cfg.critical_days ≤ daysRemaining ctx →
        daysRemaining ctx < cfg.threshold_days →
        ∃ rec, processProduct cfg ctx = some rec
          ∧ rec.alert_level = "warning"
          ∧ rec.recommended_price = roundTo 2 (price *
              (1 + min cfg.price_increase_pct cfg.max_price_increase_pct / 100)))
    ∧ (daysRemaining ctx < cfg.critical_days →
        ∃ rec, processProduct cfg ctx = some rec
          ∧ rec.alert_level = "critical"
          ∧ rec.recommended_price = roundTo 2 (price *
              (1 + min cfg.critical_increase_pct cfg.max_price_increase_pct / 100))) := by
  have hvel : 0 < velocity7d ctx := by
    unfold velocity7d
    rw [if_pos hv]
    exact div_pos (by exact_mod_cast hv) (by norm_num)
  have hpt : ¬(pyTruthy snap.final_price = false) := by
    rw [hp]
    simp [pyTruthy, hp0]
  have hor : orZero snap.final_price = price := by rw [hp]; rfl
  unfold processProduct
  rw [if_neg hstock, hs]
  simp only [processSnap]
  rw [if_neg hpt, if_neg (not_le.mpr hvel), hor]
  refine ⟨?_, ?_, ?_⟩
  · intro h
    rw [if_pos h]
  · intro h1 h2
    rw [if_neg (not_le.mpr h2), if_pos h1]
    exact ⟨_, rfl, rfl, rfl⟩
  · intro h
    rw [if_neg (not_le.mpr (lt_of_lt_of_le h hcfg)), if_neg (not_le.mpr h)]
    exact ⟨_, rfl, rfl, rfl⟩

/-- C3 witness: the spec §8 example (stock 20, velocity 10, defaults) lands
in the critical tier: days remaining 2 < 3, bump min(30, 50) = 30, and a
price of 1000 is bumped to 1300. -/
theorem oos_classification_witness :
    ∃ rec, processProduct DEFAULT_CONFIG exOOSCtx = some rec
      ∧ rec.alert_level = "critical" ∧ rec.recommended_price = 1300 := by
  have hdays : daysRemaining exOOSCtx < DEFAULT_CONFIG.critical_days := by
    norm_num [daysRemaining, velocity7d, netOrders, exOOSCtx, exampleProduct,
      DEFAULT_CONFIG]
  obtain ⟨rec, hr, ha, hpr⟩ :=
    (oos_classification DEFAULT_CONFIG exOOSCtx
      { product_id := 1, final_price := some 1000 } 1000 rfl rfl
      (by norm_num) (by norm_num [netOrders, exOOSCtx])
      (by norm_num [exOOSCtx, exampleProduct, DEFAULT_CONFIG])
      (by norm_num [DEFAULT_CONFIG])).2.2 hdays
  refine ⟨rec, hr, ha, ?_⟩
  rw [hpr]
  norm_num [DEFAULT_CONFIG, roundTo, roundHalfEven]

/-- C4: per-product data gaps only skip that product: zero stock under the
configured exclusion yields no recommendation whatever the velocity, a
missing or falsy latest price skips the product, zero 7-day velocity is
treated as safe and skips, and a skipped product drops out of the run
leaving every other product's recommendations unchanged. -/
theorem oos_per_product_gaps :
    (∀ (cfg : OOSConfig) (ctx : ProductCtx), cfg.exclude_zero_stock = true →
        ctx.product.total_stock = 0 → processProduct cfg ctx = none)
    ∧ (∀ (cfg : OOSConfig) (ctx : ProductCtx),
        (ctx.snapshot = none ∨ ∃ snap, ctx.snapshot = some snap
            ∧ pyTruthy snap.final_price = false) →
        processProduct cfg ctx = none)
    ∧ (∀ (cfg : OOSConfig) (ctx : ProductCtx), netOrders ctx.sales = 0 →
        processProduct cfg ctx = none)
    ∧ (∀ (cfg : OOSConfig) (l1 : List ProductCtx) (ctx : ProductCtx)
        (l2 : List ProductCtx), processProduct cfg ctx = none →
        oosExecute cfg (l1 ++ ctx :: l2) = oosExecute cfg (l1 ++ l2)) := by
  refine ⟨?_, ?_, ?_, ?_⟩
  · intro cfg ctx h1 h2
    unfold processProduct
    rw [if_pos ⟨h1, h2⟩]
  · intro cfg ctx h
    unfold processProduct
    by_cases hz : (cfg.exclude_zero_stock = true ∧ ctx.product.total_stock = 0)
    · rw [if_pos hz]
    · rw [if_neg hz]
      rcases h with h | ⟨snap, hsnap, hfalsy⟩
      · rw [h]
        rfl
      · rw [hsnap]
        simp only [processSnap]
        rw [if_pos hfalsy]
  · intro cfg ctx h
    have hvel : velocity7d ctx = 0 := by
      unfold velocity7d
      rw [h]
      simp
    unfold processProduct
    by_cases hz : (cfg.exclude_zero_stock = true ∧ ctx.product.total_stock = 0)
    · rw [if_pos hz]
    · rw [if_neg hz]
      cases hsnap : ctx.snapshot with
      | none => rfl
      | some snap =>
          simp only [processSnap]
          by_cases hpt : pyTruthy snap.final_price = false
          · rw [if_pos hpt]
          · rw [if_neg hpt, if_pos hvel.le]
  · intro cfg l1 ctx l2 h
    simp [oosExecute, List.filterMap_append, List.filterMap_cons, h]

/-- C4 witness: the three gap kinds each skip concretely (zero stock with
velocity 10 under exclusion, a missing snapshot, an empty sales window),
and dropping the zero-stock product from a run leaves the remaining
product's output unchanged. -/
theorem oos_per_product_gaps_witness :
    processProduct DEFAULT_CONFIG zeroStockCtx = none
    ∧ processProduct DEFAULT_CONFIG noPriceCtx = none
    ∧ processProduct DEFAULT_CONFIG noSalesCtx = none
    ∧ oosExecute DEFAULT_CONFIG ([exOOSCtx] ++ zeroStockCtx :: [noSalesCtx])
        = oosExecute DEFAULT_CONFIG ([exOOSCtx] ++ [noSalesCtx]) := by
  refine ⟨oos_per_product_gaps.1 DEFAULT_CONFIG zeroStockCtx rfl rfl,
    oos_per_product_gaps.2.1 DEFAULT_CONFIG noPriceCtx (Or.inl rfl),
    oos_per_product_gaps.2.2.1 DEFAULT_CONFIG noSalesCtx rfl,
    oos_per_product_gaps.2.2.2 DEFAULT_CONFIG [exOOSCtx] zeroStockCtx [noSalesCtx]
      (oos_per_product_gaps.1 DEFAULT_CONFIG zeroStockCtx rfl rfl)⟩

/-- The fields of the `Strategy` model read by the runner
(`backend/app/models/strategy.py`); the stored `config_json` only feeds
the handler and is not read by any claim, so it is not modelled. -/
structure Strategy where
  id : ℕ
  sType : String
  priority : ℤ
  is_active : Bool
deriving DecidableEq

/-- A `ProductStrategy` assignment row. -/
structure ProductStrategy where
  product_id : ℕ
  strategy_id : ℕ
  is_active : Bool
deriving DecidableEq

/-- The serialized `details_json` payloads the runner writes. -/
inductive RunDetails where
  | errorMsg (msg : String)
  | noProducts
  | summary (total_products recommendations : ℕ)
      (alert_levels : List (String × ℕ))
deriving DecidableEq

/-- A `StrategyExecution` row (`backend/app/models/strategy.py` lines
59-77); `id` models the DB-assigned primary key, and the model column
defaults (`status="running"`, counts 0) are the values the runner leaves
untouched. -/
structure StrategyExecution where
  id : ℕ
  strategy_id : ℕ
  status : String
  products_processed : ℕ
  recommendations_created : ℕ
  errors_count : ℕ
  details : Option RunDetails
deriving DecidableEq

/-- A `PriceHistory` row as built by the runner (`runner.py` lines 88-101).
The model has no execution-id column: the only strategy-engine tag is
`strategy_id`. -/
structure PriceHistory where
  product_id : ℕ
  price_before_discount : ℚ
  discount : ℚ
  price_after_discount : ℚ
  margin_rub : Option ℚ
  margin_pct : Option ℚ
  change_reason : String
  strategy_id : Option ℕ
  is_applied : Bool
deriving DecidableEq

/-- The `PriceHistory` row persisted for one recommendation
(`runner.py` lines 89-99). -/
def mkPriceHistory (sid : ℕ) (rec : PriceRecommendation) : PriceHistory :=
  { product_id := rec.product_id,
    price_before_discount := rec.current_price,
    discount := 0,
    price_after_discount := rec.recommended_price,
    margin_rub := rec.new_margin_rub,
    margin_pct := rec.new_margin_pct,
    change_reason := rec.reason,
    strategy_id := some sid,
    is_applied := false }

/-- Increment one key of the alert-level histogram (Python dict semantics:
first-seen key order, `get(level, 0) + 1`). -/
def bumpCount : List (String × ℕ) → String → List (String × ℕ)
  | [], k => [(k, 1)]
  | (k0, v) :: rest, k =>
      if k0 = k then (k0, v + 1) :: rest else (k0, v) :: bumpCount rest k

/-- The alert-level histogram of the execution summary
(`runner.py` lines 108-115). -/
def histogram (recs : List PriceRecommendation) : List (String × ℕ) :=
  recs.foldl (fun m r => bumpCount m r.alert_level) []

/-- A handler as the runner sees it: product ids in, either a
recommendation list or a raised exception (`Except.error`). -/
def Handler : Type := List ℕ → Except String (List PriceRecommendation)

/-- The handler registry (`get_strategy_handler`): `none` for an
unregistered strategy type. -/
def Registry : Type := String → Option Handler

/-- The active product ids assigned to a strategy
(`runner.py` lines 52-58). -/
def activeProducts (assignments : List ProductStrategy) (sid : ℕ) : List ℕ :=
  (assignments.filter (fun a => a.strategy_id = sid ∧ a.is_active = true)).map
    (fun a => a.product_id)

/-- Outcome of one `run_strategy` call: either a `ValueError` propagates to
the caller (`raised`, carrying the execution row left in the database, if
one was created, and the `PriceHistory` rows added), or the execution row
is returned (`ok`). -/
inductive RunResult where
  | raised (msg : String) (execution : Option StrategyExecution)
      (persisted : List PriceHistory)
  | ok (execution : StrategyExecution) (persisted : List PriceHistory)
deriving DecidableEq

/-- The fresh execution row created at run start (`runner.py` lines
33-40): status `running`, every count at its model column default. -/
def newExecution (exec_id sid : ℕ) : StrategyExecution :=
  { id := exec_id, strategy_id := sid, status := "running",
    products_processed := 0, recommendations_created := 0,
    errors_count := 0, details := none }

/-- Persisting phase of `run_strategy` (`runner.py` lines 76-126), as a
function of the handler invocation outcome: a caught handler exception
marks the execution failed with one error; a returned list is persisted
row by row and tallied into the summary. -/
def runRecs (execution : StrategyExecution) (sid : ℕ) (product_ids : List ℕ) :
    Except String (List PriceRecommendation) → RunResult
  | .error e =>
      .ok { execution with
            status := "failed", errors_count := 1,
            details := some (.errorMsg e) } []
  | .ok recs =>
      .ok { execution with
            status := "completed",
            products_processed := product_ids.length,
            recommendations_created := recs.length,
            details := some (.summary product_ids.length recs.length
              (histogram recs)) }
        (recs.map (mkPriceHistory sid))

/-- Dispatch phase of `run_strategy` (`runner.py` lines 42-77), as a
function of the registry lookup: a missing handler marks the already
created execution failed and raises; otherwise the active assignments are
loaded (an empty set completes with zero counts) and the handler runs. -/
def runDispatch (assignments : List ProductStrategy) (execution : StrategyExecution)
    (s : Strategy) : Option Handler → RunResult
  | none =>
      .raised ("No handler registered for strategy type " ++ s.sType)
        (some { execution with
                  status := "failed",
                  details := some (.errorMsg ("No handler for type " ++ s.sType)) })
        []
  | some handler =>
      let product_ids := activeProducts assignments s.id
      if product_ids.isEmpty then
        .ok { execution with
              status := "completed",
              details := some .noProducts } []
      else
        runRecs execution s.id product_ids (handler product_ids)

/-- Resolution phase of `run_strategy` (`runner.py` lines 24-40), as a
function of the strategy lookup: unknown or inactive strategies raise
before any execution row is created. -/
def runResolved (reg : Registry) (assignments : List ProductStrategy)
    (exec_id strategy_id : ℕ) : Option Strategy → RunResult
  | none => .raised ("Strategy " ++ toString strategy_id ++ " not found") none []
  | some s =>
      if s.is_active = false then
        .raised ("Strategy " ++ toString strategy_id ++ " is inactive") none []
      else
        runDispatch assignments (newExecution exec_id s.id) s (reg s.sType)

/-- `run_strategy` (`runner.py` lines 18-126).  `exec_id` models the
DB-assigned primary key of the execution row created at run start. -/
def run_strategy (reg : Registry) (strategies : List Strategy)
    (assignments : List ProductStrategy) (exec_id : ℕ) (strategy_id : ℕ) :
    RunResult :=
  runResolved reg assignments exec_id strategy_id
    (strategies.find? (fun s => s.id = strategy_id))

/-- Insert a strategy into a priority-ascending list (stable). -/
def insertByPriority (s : Strategy) : List Strategy → List Strategy
  | [] => [s]
  | t :: ts =>
      if s.priority ≤ t.priority then s :: t :: ts else t :: insertByPriority s ts

/-- The `ORDER BY priority ASC` of the batch query. -/
def sortByPriority : List Strategy → List Strategy
  | [] => []
  | s :: ss => insertByPriority s (sortByPriority ss)

/-- The order in which the batch entry point processes strategies:
active ones, ascending priority (`runner.py` lines 138-143). -/
def batchOrder (strategies : List Strategy) : List Strategy :=
  sortByPriority (strategies.filter (fun s => s.is_active = true))

/-- The aggregate result of `run_all_active_strategies`. -/
structure BatchResult where
  strategies_run : ℕ
  total_recommendations : ℕ
  errors : List String
deriving DecidableEq

/-- The per-strategy loop of `run_all_active_strategies`
(`runner.py` lines 145-153), threading the next execution id. -/
def runAllGo (reg : Registry) (strategies : List Strategy)
    (assignments : List ProductStrategy) :
    List Strategy → ℕ → BatchResult × List PriceHistory
  | [], _ => ({ strategies_run := 0, total_recommendations := 0, errors := [] }, [])
  | s :: rest, n =>
      let o := run_strategy reg strategies assignments n s.id
      let acc := runAllGo reg strategies assignments rest (n + 1)
      match o with
      | .raised msg _ ph =>
          ({ acc.1 with
              errors := ("Strategy " ++ toString s.id ++ ": " ++ msg) :: acc.1.errors },
           ph ++ acc.2)
      | .ok ex ph =>
          ({ acc.1 with
              strategies_run := acc.1.strategies_run + 1,
              total_recommendations :=
                ex.recommendations_created + acc.1.total_recommendations },
           ph ++ acc.2)

/-- `run_all_active_strategies` (`runner.py` lines 129-157): runs the
active strategies in ascending priority order, collecting the aggregate
result and every `PriceHistory` row committed at the end of the batch. -/
def run_all_active_strategies (reg : Registry) (strategies : List Strategy)
    (assignments : List ProductStrategy) : BatchResult × List PriceHistory :=
  runAllGo reg strategies assignments (batchOrder strategies) 0

lemma insertByPriority_perm (s : Strategy) (l : List Strategy) :
    List.Perm (insertByPriority s l) (s :: l) := by
  induction l with
  | nil => simp [insertByPriority]
  | cons t ts ih =>
      unfold insertByPriority
      by_cases h : s.priority ≤ t.priority
      · rw [if_pos h]
      · rw [if_neg h]
        exact (ih.cons t).trans (List.Perm.swap s t ts)

lemma sortByPriority_perm (l : List Strategy) :
    List.Perm (sortByPriority l) l := by
  induction l with
  | nil => rfl
  | cons s ss ih =>
      exact (insertByPriority_perm s (sortByPriority ss)).trans (ih.cons s)

lemma insertByPriority_sorted (s : Strategy) (l : List Strategy)
    (h : List.Sorted (fun a b => a.priority ≤ b.priority) l) :
    List.Sorted (fun a b => a.priority ≤ b.priority) (insertByPriority s l) := by
  induction l with
  | nil => simp [insertByPriority]
  | cons t ts ih =>
      rw [List.sorted_cons] at h
      unfold insertByPriority
      by_cases hle : s.priority ≤ t.priority
      · rw [if_pos hle, List.sorted_cons]
        refine ⟨?_, List.sorted_cons.mpr h⟩
        intro b hb
        rcases List.mem_cons.mp hb with hb | hb
        · rw [hb]; exact hle
        · exact le_trans hle (h.1 b hb)
      · rw [if_neg hle, List.sorted_cons]
        refine ⟨?_, ih h.2⟩
        intro b hb
        rcases List.mem_cons.mp ((insertByPriority_perm s ts).mem_iff.mp hb) with hb | hb
        · rw [hb]; exact le_of_not_le hle
        · exact h.1 b hb

lemma sortByPriority_sorted (l : List Strategy) :
    List.Sorted (fun a b => a.priority ≤ b.priority) (sortByPriority l) := by
  induction l with
  | nil => simp [sortByPriority]
  | cons s ss ih => exact insertByPriority_sorted s (sortByPriority ss) ih

/-- C5 (amended): dispatching an active strategy whose type has no
registered handler leaves a persisted execution row with status `failed`
and the error recorded in its details, but `errors_count` stays at its
column default 0 (the no-handler branch never sets it), no recommendation
rows are persisted, and the `ValueError` is re-raised to the caller. -/
theorem run_strategy_no_handler (reg : Registry) (strategies : List Strategy)
    (assignments : List ProductStrategy) (n sid : ℕ) (s : Strategy)
    (hfind : strategies.find? (fun t => t.id = sid) = some s)
    (hact : s.is_active = true) (hreg : reg s.sType = none) :
    ∃ ex, run_strategy reg strategies assignments n sid =
        .raised ("No handler registered for strategy type " ++ s.sType) (some ex) []
      ∧ ex.status = "failed" ∧ ex.errors_count = 0
      ∧ ex.details = some (.errorMsg ("No handler for type " ++ s.sType)) := by
  unfold run_strategy
  rw [hfind]
  simp only [runResolved]
  rw [if_neg (by simp [hact]), hreg]
  simp only [runDispatch]
  exact ⟨_, rfl, rfl, rfl, rfl⟩

/-- The empty registry: no strategy type has a handler. -/
def noHandlerReg : Registry := fun _ => none

/-- An active strategy of a type with no registered handler. -/
def stratU : Strategy :=
  { id := 3, sType := "target_margin", priority := 5, is_active := true }

/-- C5 witness: running `stratU` against the empty registry raises, leaves
a failed execution row with `errors_count = 0`, and persists nothing. -/
theorem run_strategy_no_handler_witness :
    ∃ ex, run_strategy noHandlerReg [stratU] [] 1 3 =
        .raised ("No handler registered for strategy type " ++ stratU.sType)
          (some ex) []
      ∧ ex.status = "failed" ∧ ex.errors_count = 0
      ∧ ex.details = some (.errorMsg ("No handler for type " ++ stratU.sType)) :=
  run_strategy_no_handler noHandlerReg [stratU] [] 1 3 stratU rfl rfl rfl

/-- C5 counterexample: at this concrete call, no execution record with
`errors_count = 1` results — the only record left behind carries
`errors_count = 0`, refuting the claimed count. -/
theorem run_strategy_no_handler_cex :
    ¬ ∃ (msg : String) (ex : StrategyExecution) (ph : List PriceHistory),
        (run_strategy noHandlerReg [stratU] [] 1 3 = .raised msg (some ex) ph
          ∨ run_strategy noHandlerReg [stratU] [] 1 3 = .ok ex ph)
        ∧ ex.errors_count = 1 := by
  rintro ⟨msg, ex, ph, h | h, hcount⟩
  · have hrun : run_strategy noHandlerReg [stratU] [] 1 3 =
        .raised "No handler registered for strategy type target_margin"
          (some { id := 1, strategy_id := 3, status := "failed",
                  products_processed := 0, recommendations_created := 0,
                  errors_count := 0,
                  details := some (.errorMsg "No handler for type target_margin") })
          [] := rfl
    rw [hrun] at h
    injection h with h1 h2 h3
    injection h2 with h2
    rw [← h2] at hcount
    exact absurd hcount (by decide)
  · have hrun : run_strategy noHandlerReg [stratU] [] 1 3 =
        .raised "No handler registered for strategy type target_margin"
          (some { id := 1, strategy_id := 3, status := "failed",
                  products_processed := 0, recommendations_created := 0,
                  errors_count := 0,
                  details := some (.errorMsg "No handler for type target_margin") })
          [] := rfl
    rw [hrun] at h
    exact RunResult.noConfusion h

/-- C6: a handler exception inside `run_strategy` is caught: the call
returns (does not raise) an execution row with status `failed`,
`errors_count = 1` and the error message in its details, and no
`PriceHistory` rows from that handler invocation are persisted. -/
theorem run_strategy_handler_exception (reg : Registry)
    (strategies : List Strategy) (assignments : List ProductStrategy)
    (n sid : ℕ) (s : Strategy) (handler : Handler) (msg : String)
    (hfind : strategies.find? (fun t => t.id = sid) = some s)
    (hact : s.is_active = true) (hreg : reg s.sType = some handler)
    (hne : (activeProducts assignments s.id).isEmpty = false)
    (herr : handler (activeProducts assignments s.id) = .error msg) :
    run_strategy reg strategies assignments n sid =
      .ok { id := n, strategy_id := s.id, status := "failed",
            products_processed := 0, recommendations_created := 0,
            errors_count := 1, details := some (.errorMsg msg) } [] := by
  unfold run_strategy
  rw [hfind]
  simp only [runResolved]
  rw [if_neg (by simp [hact]), hreg]
  simp only [runDispatch]
  rw [if_neg (by simp [hne]), herr]
  rfl

/-- A handler that always raises. -/
def throwingHandler : Handler := fun _ => .error "boom"

/-- An active assignment of product 9 to strategy 4. -/
def assignT : ProductStrategy :=
  { product_id := 9, strategy_id := 4, is_active := true }

/-- The deactivated copy of that assignment. -/
def assignTOff : ProductStrategy :=
  { product_id := 9, strategy_id := 4, is_active := false }

/-- A registry with a throwing out-of-stock handler. -/
def regThrow : Registry :=
  fun t => if t = "out_of_stock" then some throwingHandler else none

/-- An active out-of-stock strategy for the throwing registry. -/
def stratT : Strategy :=
  { id := 4, sType := "out_of_stock", priority := 5, is_active := true }

/-- C6 witness: the throwing handler yields a returned `failed` execution
with `errors_count = 1`, message recorded, and nothing persisted. -/
theorem run_strategy_handler_exception_witness :
    run_strategy regThrow [stratT] [assignT] 1 4 =
      .ok { id := 1, strategy_id := 4, status := "failed",
            products_processed := 0, recommendations_created := 0,
            errors_count := 1, details := some (.errorMsg "boom") } [] :=
  run_strategy_handler_exception regThrow [stratT] [assignT] 1 4 stratT
    throwingHandler "boom" rfl rfl rfl rfl rfl

/-- C8: an unknown strategy id or an inactive strategy raises a caller
error with no execution row created; an active strategy with a registered
handler but no active product assignments instead completes with zero
`products_processed` and `recommendations_created`. -/
theorem run_strategy_caller_errors :
    (∀ (reg : Registry) (strategies : List Strategy)
        (assignments : List ProductStrategy) (n sid : ℕ),
        strategies.find? (fun t => t.id = sid) = none →
        run_strategy reg strategies assignments n sid =
          .raised ("Strategy " ++ toString sid ++ " not found") none [])
    ∧ (∀ (reg : Registry) (strategies : List Strategy)
        (assignments : List ProductStrategy) (n sid : ℕ) (s : Strategy),
        strategies.find? (fun t => t.id = sid) = some s →
        s.is_active = false →
        run_strategy reg strategies assignments n sid =
          .raised ("Strategy " ++ toString sid ++ " is inactive") none [])
    ∧ (∀ (reg : Registry) (strategies : List Strategy)
        (assignments : List ProductStrategy) (n sid : ℕ) (s : Strategy)
        (handler : Handler),
        strategies.find? (fun t => t.id = sid) = some s →
        s.is_active = true → reg s.sType = some handler →
        activeProducts assignments s.id = [] →
        run_strategy reg strategies assignments n sid =
          .ok { id := n, strategy_id := s.id, status := "completed",
                products_processed := 0, recommendations_created := 0,
                errors_count := 0, details := some .noProducts } []) := by
  refine ⟨?_, ?_, ?_⟩
  · intro reg strategies assignments n sid hfind
    unfold run_strategy
    rw [hfind]
    rfl
  · intro reg strategies assignments n sid s hfind hina
    unfold run_strategy
    rw [hfind]
    simp only [runResolved]
    rw [if_pos (by simp [hina])]
  · intro reg strategies assignments n sid s handler hfind hact hreg hempty
    unfold run_strategy
    rw [hfind]
    simp only [runResolved]
    rw [if_neg (by simp [hact]), hreg]
    simp only [runDispatch]
    rw [hempty]
    rfl

/-- C8 witness: looking up a missing id raises with no record, running the
inactive copy of a strategy raises with no record, and an active strategy
with an empty assignment set completes with zero counts. -/
theorem run_strategy_caller_errors_witness :
    run_strategy regThrow [stratT] [] 1 99 =
      .raised ("Strategy " ++ toString 99 ++ " not found") none []
    ∧ run_strategy regThrow [{ stratT with is_active := false }] [] 1 4 =
        .raised ("Strategy " ++ toString 4 ++ " is inactive") none []
    ∧ run_strategy regThrow [stratT] [assignTOff] 1 4 =
        .ok { id := 1, strategy_id := 4, status := "completed",
              products_processed := 0, recommendations_created := 0,
              errors_count := 0, details := some .noProducts } [] :=
  ⟨run_strategy_caller_errors.1 regThrow [stratT] [] 1 99 rfl,
   run_strategy_caller_errors.2.1 regThrow [{ stratT with is_active := false }]
     [] 1 4 { stratT with is_active := false } rfl rfl,
   run_strategy_caller_errors.2.2 regThrow [stratT] [assignTOff] 1 4 stratT
     throwingHandler rfl rfl rfl rfl⟩

/-- The single recommendation returned by the succeeding batch handler. -/
def recB : PriceRecommendation :=
  { product_id := 7, current_price := 1000, recommended_price := 1300,
    price_change_pct := 30, current_margin_pct := none,
    new_margin_pct := none, new_margin_rub := none,
    alert_level := "critical", reason := "", extra_data := none }

/-- A handler that succeeds with one recommendation. -/
def handlerB : Handler := fun _ => .ok [recB]

/-- A registry knowing only the out-of-stock type. -/
def regAB : Registry :=
  fun t => if t = "out_of_stock" then some handlerB else none

/-- Batch strategy A: priority 1, a type with no handler (throws). -/
def stratA : Strategy :=
  { id := 1, sType := "promotion_booster", priority := 1, is_active := true }

/-- Batch strategy B: priority 2, handled and succeeding. -/
def stratB : Strategy :=
  { id := 2, sType := "out_of_stock", priority := 2, is_active := true }

/-- One active assignment of product 7 to strategy B. -/
def assignsAB : List ProductStrategy :=
  [{ product_id := 7, strategy_id := 2, is_active := true }]

lemma runAllGo_count (reg : Registry) (strategies : List Strategy)
    (assignments : List ProductStrategy) :
    ∀ (l : List Strategy) (n : ℕ),
      (runAllGo reg strategies assignments l n).1.errors.length
        + (runAllGo reg strategies assignments l n).1.strategies_run
        = l.length := by
  intro l
  induction l with
  | nil => intro n; rfl
  | cons s rest ih =>
      intro n
      cases ho : run_strategy reg strategies assignments n s.id with
      | raised msg ex ph =>
          simp only [runAllGo, ho, List.length_cons]
          have h := ih (n + 1)
          omega
      | ok ex ph =>
          simp only [runAllGo, ho, List.length_cons]
          have h := ih (n + 1)
          omega

/-- C7: the batch entry point processes the active strategies in ascending
priority order (the processed list is sorted by priority and is a
permutation of the active strategies); every strategy ends either counted
as run or as an entry of the aggregate error list, so one raising strategy
never stops the rest; and in the concrete batch where strategy A (priority
1) raises on handler lookup and strategy B (priority 2) succeeds, B's
recommendation is persisted while A contributes only its aggregate error
entry. -/
theorem run_all_priority_and_isolation :
    (∀ strategies : List Strategy,
        List.Sorted (fun a b => a.priority ≤ b.priority) (batchOrder strategies)
        ∧ List.Perm (batchOrder strategies)
            (strategies.filter (fun s => s.is_active = true)))
    ∧ (∀ (reg : Registry) (strategies : List Strategy)
          (assignments : List ProductStrategy),
        (run_all_active_strategies reg strategies assignments).1.errors.length
          + (run_all_active_strategies reg strategies assignments).1.strategies_run
          = (strategies.filter (fun s => s.is_active = true)).length)
    ∧ run_all_active_strategies regAB [stratA, stratB] assignsAB =
        ({ strategies_run := 1, total_recommendations := 1,
           errors := ["Strategy 1: No handler registered for strategy type promotion_booster"] },
         [mkPriceHistory 2 recB]) := by
  refine ⟨?_, ?_, ?_⟩
  · intro strategies
    exact ⟨sortByPriority_sorted _, sortByPriority_perm _⟩
  · intro reg strategies assignments
    have h := runAllGo_count reg strategies assignments (batchOrder strategies) 0
    have hlen : (batchOrder strategies).length
        = (strategies.filter (fun s => s.is_active = true)).length :=
      (sortByPriority_perm _).length_eq
    unfold run_all_active_strategies
    omega
  · rfl

/-- The execution row a successful run of strategy B leaves behind, as a
function of the DB-assigned execution id. -/
def execB (n : ℕ) : StrategyExecution :=
  { id := n, strategy_id := 2, status := "completed",
    products_processed := 1, recommendations_created := 1,
    errors_count := 0, details := some (.summary 1 1 [("critical", 1)]) }

/-- C9 counterexample: two runs of the same strategy under different
execution ids produce two distinct execution rows but byte-identical
persisted `PriceHistory` rows — the row carries only the strategy id, so a
persisted recommendation does not trace back to exactly one
`StrategyExecution`. -/
theorem price_history_not_execution_traceable_cex :
    run_strategy regAB [stratB] assignsAB 1 2
        = .ok (execB 1) [mkPriceHistory 2 recB]
    ∧ run_strategy regAB [stratB] assignsAB 2 2
        = .ok (execB 2) [mkPriceHistory 2 recB]
    ∧ execB 1 ≠ execB 2
    ∧ [mkPriceHistory 2 recB] ≠ ([] : List PriceHistory) :=
  ⟨rfl, rfl, by simp [execB], List.cons_ne_nil _ _⟩

/-- C9 (amended): a completed run persists exactly one `PriceHistory` row
per returned recommendation, `recommendations_created` equals the number
of rows persisted, and every persisted row is tagged with the strategy id
(the schema has no execution-id column, so rows trace to the strategy, not
to a unique execution). -/
theorem run_strategy_count_and_tagging (reg : Registry)
    (strategies : List Strategy) (assignments : List ProductStrategy)
    (n sid : ℕ) (s : Strategy) (handler : Handler)
    (recs : List PriceRecommendation)
    (hfind : strategies.find? (fun t => t.id = sid) = some s)
    (hact : s.is_active = true) (hreg : reg s.sType = some handler)
    (hne : (activeProducts assignments s.id).isEmpty = false)
    (hok : handler (activeProducts assignments s.id) = .ok recs) :
    ∃ ex, run_strategy reg strategies assignments n sid
        = .ok ex (recs.map (mkPriceHistory s.id))
      ∧ ex.status = "completed"
      ∧ ex.recommendations_created = (recs.map (mkPriceHistory s.id)).length
      ∧ ∀ r ∈ recs.map (mkPriceHistory s.id), r.strategy_id = some s.id := by
  unfold run_strategy
  rw [hfind]
  simp only [runResolved]
  rw [if_neg (by simp [hact]), hreg]
  simp only [runDispatch]
  rw [if_neg (by simp [hne]), hok]
  simp only [runRecs]
  refine ⟨_, rfl, rfl, by simp, ?_⟩
  intro r hr
  obtain ⟨rec, _, hrec⟩ := List.mem_map.mp hr
  rw [← hrec]
  rfl

/-- C9 witness: strategy B's run persists one row, counts it, and tags it
with strategy id 2. -/
theorem run_strategy_count_and_tagging_witness :
    ∃ ex, run_strategy regAB [stratB] assignsAB 1 2
        = .ok ex ([recB].map (mkPriceHistory stratB.id))
      ∧ ex.status = "completed"
      ∧ ex.recommendations_created = ([recB].map (mkPriceHistory stratB.id)).length
      ∧ ∀ r ∈ [recB].map (mkPriceHistory stratB.id),
          r.strategy_id = some stratB.id :=
  run_strategy_count_and_tagging regAB [stratB] assignsAB 1 2 stratB handlerB
    [recB] rfl rfl rfl rfl rfl
